import Mathlib

/-!
Shallow embedding of the cover-image upload widget
(`src/components/common/CoverImageUpload.tsx`) of the
library-recommendation-system repository.

The widget's local React state is modelled by `UploadState`; the browser
environment (FileReader results, image decoding, canvas encoding) is an
explicit oracle `ImageEnv`; every handler becomes a pure function returning
the next state together with the list of values passed to the `onChange`
sink during the call.  JavaScript numbers are modelled by `ℚ` (exact
rationals) and `Math.round` by `jsRound` (floor of x + 1/2, JavaScript's
round-half-up).
-/

namespace CoverImageUpload

/-- JavaScript `Math.round`: round half toward positive infinity. -/
def jsRound (q : ℚ) : Int := ⌊q + 1 / 2⌋

/-- JavaScript `String.prototype.startsWith`: the argument is an initial
segment of the receiver's character sequence. -/
def strStartsWith (s pre : String) : Bool := pre.data.isPrefixOf s.data

/-- Unit names used by `formatBytes` (`['B', 'KB', 'MB', 'GB']`). -/
def byteUnits : Nat → String
  | 0 => "B"
  | 1 => "KB"
  | 2 => "MB"
  | _ => "GB"

/-- JavaScript `value.toFixed(d)` for the non-negative values and `d ∈ {0, 1}`
used in `formatBytes` (rounding modelled as round-half-up). -/
def toFixedQ (q : ℚ) (d : Nat) : String :=
  if d = 0 then toString (jsRound q)
  else
    let n := jsRound (q * 10)
    toString (n / 10) ++ "." ++ toString (n % 10)

/-- Source function `formatBytes`: pick the largest unit index `i ≤ 3` with
`1024^i ≤ bytes` (the float expression `Math.floor(Math.log bytes / Math.log 1024)`),
divide, and print with 0 or 1 decimal places.  All call sites pass integers. -/
def formatBytes (bytes : Int) : String :=
  if bytes ≤ 0 then "0 B"
  else
    let i : Nat := if bytes < 1024 then 0
      else if bytes < 1024 ^ 2 then 1
      else if bytes < 1024 ^ 3 then 2
      else 3
    let value : ℚ := (bytes : ℚ) / (1024 : ℚ) ^ i
    let d : Nat := if 10 ≤ value ∨ i = 0 then 0 else 1
    toFixedQ value d ++ " " ++ byteUnits i

/-- The component's configuration props (with the source defaults). -/
structure Config where
  maxSizeMB : ℚ := 2
  maxEncodedKB : Option ℚ := none
  maxDimension : Nat := 900
  disabled : Bool := false

/-- Raw-size ceiling `maxBytes = Math.round(maxSizeMB * 1024 * 1024)`. -/
def maxBytes (cfg : Config) : Int := jsRound (cfg.maxSizeMB * 1024 * 1024)

/-- Encoded-size ceiling `maxEncodedBytes = Math.round(maxEncodedKB * 1024)`
when configured. -/
def maxEncodedBytes (cfg : Config) : Option Int :=
  cfg.maxEncodedKB.map (fun k => jsRound (k * 1024))

/-- The raw `File` handed to the widget by the picker or by drag-and-drop. -/
structure FileData where
  name : String
  size : Nat
  type : String

/-- Entries of `lastFileMeta` (`{ name, size }`). -/
structure FileMeta where
  name : String
  size : Nat
deriving DecidableEq

/-- The widget's local React state. -/
structure UploadState where
  isDestroyed : Bool
  error : Option String
  lastFileMeta : Option FileMeta
  isDragging : Bool
  inputKey : Nat
deriving DecidableEq

/-- Initial state on mount. -/
def initialState : UploadState :=
  { isDestroyed := false, error := none, lastFileMeta := none,
    isDragging := false, inputKey := 0 }

/-- Interactability guard `canInteract = !disabled && !isDestroyed`. -/
def canInteract (cfg : Config) (st : UploadState) : Bool :=
  !cfg.disabled && !st.isDestroyed

/-- UTF-8 byte length of the whole data-URL string, the source's
`dataUrlByteLength` (`new TextEncoder().encode(dataUrl).length`). -/
def dataUrlByteLength (dataUrl : String) : Nat := dataUrl.utf8ByteSize

/-- Oracle for the browser operations a selection performs: the FileReader
result on the raw file, the decoded image's natural dimensions, canvas 2d
context availability, and for each render size and quality the encoded blob
size and the base64 payload the FileReader yields for that blob.  `none`
models the corresponding failure callback (reader `onerror`, image
`onerror`, `getContext` returning null, `toBlob` yielding null). -/
structure ImageEnv where
  fileData : Option String
  image : Option (Nat × Nat)
  ctxOk : Bool
  encBlob : Nat → Nat → ℚ → Option Nat
  blobPayload : Nat → Nat → ℚ → Option String

/-- The failures that can abort `compressToFit` (each a thrown/rejected
`Error` in the source). -/
inductive CompressError where
  | loadFailed
  | canvasUnsupported
  | encodeFailed
  | readFailed
  | tooLarge
deriving DecidableEq

/-- One iteration of the `for (let pass = 0; pass < 10; pass++)` loop of
`compressToFit`, with the remaining pass count as fuel.  Renders at
`max 1 (round (dim * scale))`, encodes, returns the blob's data URL when the
blob size fits the target, otherwise lowers quality by 0.1 floored at 0.55
while above the floor, and multiplies the scale by 0.85 once at the floor.
The data URL the FileReader yields for a blob of MIME type `t` is
`"data:" ++ t ++ ";base64," ++ payload`, with `t = "image/jpeg"` here. -/
def compressPass (env : ImageEnv) (W H : Nat) (targetBytes : Int) :
    Nat → ℚ → ℚ → Except CompressError String
  | 0, _, _ => .error .tooLarge
  | fuel + 1, scale, quality =>
    let w : Nat := max 1 (jsRound ((W : ℚ) * scale)).toNat
    let h : Nat := max 1 (jsRound ((H : ℚ) * scale)).toNat
    if env.ctxOk = false then .error .canvasUnsupported
    else
      match env.encBlob w h quality with
      | none => .error .encodeFailed
      | some size =>
        if (size : Int) ≤ targetBytes then
          match env.blobPayload w h quality with
          | none => .error .readFailed
          | some payload => .ok ("data:" ++ "image/jpeg" ++ ";base64," ++ payload)
        else if quality > 0.55 then
          compressPass env W H targetBytes fuel scale (max 0.55 (quality - 0.1))
        else
          compressPass env W H targetBytes fuel (scale * 0.85) quality

/-- Source function `compressToFit(file, targetBytes)`: load the image,
compute the initial scale (`1`, shrunk to `maxDimension / longest` when the
longest side exceeds `maxDimension`), start at quality `0.85`, and run up to
10 passes. -/
def compressToFit (cfg : Config) (env : ImageEnv) (targetBytes : Int) :
    Except CompressError String :=
  match env.image with
  | none => .error .loadFailed
  | some (W, H) =>
    let longest := max W H
    let scale : ℚ :=
      if longest > cfg.maxDimension then (cfg.maxDimension : ℚ) / (longest : ℚ) else 1
    compressPass env W H targetBytes 10 scale 0.85

/-- The oversize-file message of `readFileAsDataUrl`. -/
def sizeMsg (cfg : Config) : String :=
  "File exceeds size limit. Please upload a file smaller than " ++
    formatBytes (maxBytes cfg) ++ "."

/-- The not-an-image message of `readFileAsDataUrl`. -/
def notImageMsg : String := "Please choose an image file (PNG, JPG, WEBP, GIF)."

/-- The compression-failure message of `readFileAsDataUrl`. -/
def tooLargeMsg (target : Int) : String :=
  "Image is too large to store. Please choose a smaller image or reduce resolution (limit: " ++
    formatBytes target ++ ")."

/-- The generic catch-all message of `onFileInputChange` / `onDrop`. -/
def readFailMsg : String := "Failed to read file. Please try again."

/-- Whether `readFileAsDataUrl` returned normally or threw (its first
FileReader `await` is the only statement whose rejection escapes it). -/
inductive RfdOutcome where
  | returned
  | threw
deriving DecidableEq

/-- Result of one `readFileAsDataUrl` call: the state after its `set*`
calls, the values passed to the `onChange` sink, and whether it threw. -/
structure RfdResult where
  state : UploadState
  emitted : List String
  outcome : RfdOutcome

/-- Source function `readFileAsDataUrl(file)`: reject oversize files, then
non-image types; record metadata and clear the error; read the file (a
reader error throws to the caller); if an encoded-size budget is configured
and the naive data URL exceeds it, try `compressToFit`, mapping any of its
failures to the too-large message; finally emit the data URL via
`onChange`. -/
def readFileAsDataUrl (cfg : Config) (env : ImageEnv) (file : FileData)
    (st : UploadState) : RfdResult :=
  if (file.size : Int) > maxBytes cfg then
    ⟨{ st with error := some (sizeMsg cfg) }, [], .returned⟩
  else if !strStartsWith file.type "image/" then
    ⟨{ st with error := some notImageMsg }, [], .returned⟩
  else
    let st1 := { st with error := none,
                         lastFileMeta := some ⟨file.name, file.size⟩ }
    match env.fileData with
    | none => ⟨st1, [], .threw⟩
    | some dataUrl =>
      match maxEncodedBytes cfg with
      | none => ⟨st1, [dataUrl], .returned⟩
      | some target =>
        if (dataUrlByteLength dataUrl : Int) > target then
          match compressToFit cfg env target with
          | .error _ => ⟨{ st1 with error := some (tooLargeMsg target) }, [], .returned⟩
          | .ok compressed => ⟨st1, [compressed], .returned⟩
        else ⟨st1, [dataUrl], .returned⟩

/-- The shared body of `onFileInputChange` and `onDrop` once a file is in
hand: `try { await readFileAsDataUrl(file) } catch { setError(generic) }
finally { setInputKey(k+1) }`. -/
def handleFile (cfg : Config) (env : ImageEnv) (file : FileData)
    (st : UploadState) : UploadState × List String :=
  let r := readFileAsDataUrl cfg env file st
  let st2 := match r.outcome with
    | .returned => r.state
    | .threw => { r.state with error := some readFailMsg }
  ({ st2 with inputKey := st2.inputKey + 1 }, r.emitted)

/-- Selecting a file through the picker.  The hidden `<input type="file">`
carries `disabled={!canInteract}`, so no `change` event fires (and
`onFileInputChange` never runs) unless the session is interactable. -/
def selectFile (cfg : Config) (env : ImageEnv) (file : FileData)
    (st : UploadState) : UploadState × List String :=
  if canInteract cfg st then handleFile cfg env file st else (st, [])

/-- Drop handler `onDrop`: always clears the drag flag, then bails out
unless interactable, otherwise handles the dropped file like a picker
selection. -/
def onDrop (cfg : Config) (env : ImageEnv) (file : FileData)
    (st : UploadState) : UploadState × List String :=
  let st0 := { st with isDragging := false }
  if canInteract cfg st0 then handleFile cfg env file st0 else (st0, [])

/-- Browse trigger `onBrowse`: returns whether the hidden input's `click()`
was invoked (the handler is a guard plus that one call; it never touches
state). -/
def onBrowse (cfg : Config) (st : UploadState) : Bool :=
  canInteract cfg st

/-- Lifecycle action `destroy()`: mark destroyed, clear error and metadata,
emit the empty value, refresh the input element.  (It does not touch the
drag flag.) -/
def destroy (st : UploadState) : UploadState × List String :=
  ({ st with isDestroyed := true, error := none, lastFileMeta := none,
             inputKey := st.inputKey + 1 }, [""])

/-- Lifecycle action `reinitialize()`: clear the destroyed flag and all
transient state. -/
def reinitialize (st : UploadState) : UploadState × List String :=
  ({ st with isDestroyed := false, error := none, lastFileMeta := none,
             isDragging := false, inputKey := st.inputKey + 1 }, [])

/-- Clear action `clearImage()`: emit the empty string and clear error and
metadata. -/
def clearImage (st : UploadState) : UploadState × List String :=
  ({ st with error := none, lastFileMeta := none,
             inputKey := st.inputKey + 1 }, [""])

/-- The `useEffect` body that runs whenever `resetSignal` changes: hard
reset of all local UI state; the sink is not called. -/
def resetSession (st : UploadState) : UploadState × List String :=
  ({ st with isDestroyed := false, error := none, lastFileMeta := none,
             isDragging := false, inputKey := st.inputKey + 1 }, [])

/-- Loop of the fit-to-budget search as the specification words it
(steps 3.a-3.e): render at `round(dim * scale)` with minimum 1, encode at
`quality`, return the first encoding whose size is at most the budget;
otherwise decrease quality by 0.10 floored at 0.55 while above the floor,
and only at the floor multiply the scale by 0.85, quality unchanged. -/
def fitLoopSpec (env : ImageEnv) (W H : Nat) (targetBytes : Int) :
    Nat → ℚ → ℚ → Except CompressError String
  | 0, _, _ => .error .tooLarge
  | fuel + 1, scale, quality =>
    let w : Nat := max 1 (jsRound ((W : ℚ) * scale)).toNat
    let h : Nat := max 1 (jsRound ((H : ℚ) * scale)).toNat
    if env.ctxOk = false then .error .canvasUnsupported
    else
      match env.encBlob w h quality with
      | none => .error .encodeFailed
      | some size =>
        if (size : Int) ≤ targetBytes then
          match env.blobPayload w h quality with
          | none => .error .readFailed
          | some payload => .ok ("data:" ++ "image/jpeg" ++ ";base64," ++ payload)
        else if quality > 0.55 then
          fitLoopSpec env W H targetBytes fuel scale (max 0.55 (quality - 0.1))
        else
          fitLoopSpec env W H targetBytes fuel (scale * 0.85) quality

/-- Fit-to-budget search as the specification words it: initial scale
`min(1, maxDimensionPx / max(sourceWidth, sourceHeight))`, initial quality
`0.85`, at most 10 passes. -/
def fitToBudgetSpec (cfg : Config) (env : ImageEnv) (targetBytes : Int) :
    Except CompressError String :=
  match env.image with
  | none => .error .loadFailed
  | some (W, H) =>
    let scale : ℚ := min 1 ((cfg.maxDimension : ℚ) / ((max W H : Nat) : ℚ))
    fitLoopSpec env W H targetBytes 10 scale 0.85

/-! Concrete configurations, files and environments used to instantiate the
theorems below. -/

/-- Configuration with a 64-byte encoded budget (0.0625 KB). -/
def c1Cfg : Config := { maxEncodedKB := some (1 / 16) }

/-- Base64 payload the encoder oracle returns for a 60-byte blob
(`4 * ceil(60 / 3) = 80` characters). -/
def c1Payload : String := String.mk (List.replicate 80 'A')

/-- Naive data URL of the raw file: 100 bytes, above the 64-byte budget. -/
def c1Naive : String := "data:image/png;base64," ++ String.mk (List.replicate 78 'B')

/-- A valid 60-byte PNG upload. -/
def c1File : FileData := { name := "cover.png", size := 60, type := "image/png" }

/-- Environment for a 10 by 10 image whose first JPEG pass encodes to a
60-byte blob (within the 64-byte budget). -/
def c1Env : ImageEnv :=
  { fileData := some c1Naive, image := some (10, 10), ctxOk := true,
    encBlob := fun _ _ _ => some 60, blobPayload := fun _ _ _ => some c1Payload }

/-- The data URL the widget emits for `c1Env`: 23 header bytes plus the
80-byte payload, 103 bytes in total. -/
def c1Emitted : String := "data:" ++ "image/jpeg" ++ ";base64," ++ c1Payload

/-- Configuration for the unreachable-budget scenario (64-byte budget). -/
def c3Cfg : Config := { maxEncodedKB := some (1 / 16) }

/-- Naive 100-byte data URL, above the 64-byte budget. -/
def c3Naive : String := "data:image/png;base64," ++ String.mk (List.replicate 78 'B')

/-- A valid 70-byte PNG upload. -/
def c3File : FileData := { name := "big.png", size := 70, type := "image/png" }

/-- Environment where every encoding pass produces a 1000-byte blob, so a
64-byte budget is unreachable. -/
def c3Env : ImageEnv :=
  { fileData := some c3Naive, image := some (10, 10), ctxOk := true,
    encBlob := fun _ _ _ => some 1000, blobPayload := fun _ _ _ => some "QUFB" }

/-- Environment in which every browser operation fails (never consulted on
the validation-failure paths). -/
def c4Env : ImageEnv :=
  { fileData := none, image := none, ctxOk := false,
    encBlob := fun _ _ _ => none, blobPayload := fun _ _ _ => none }

/-- A 3 MB text file: both oversize (default limit 2 MB) and not an image. -/
def c4File : FileData := { name := "notes.txt", size := 3000000, type := "text/plain" }

/-- A 100-byte text file: within the raw limit but not an image. -/
def c4SmallFile : FileData := { name := "doc.txt", size := 100, type := "text/plain" }

/-- A small valid PNG upload for the lifecycle scenario. -/
def c6File : FileData := { name := "cover.png", size := 10, type := "image/png" }

/-- Environment in which the lifecycle scenario's selection succeeds. -/
def c6Env : ImageEnv :=
  { fileData := some "data:image/png;base64,QUFBQQ==", image := some (4, 4), ctxOk := true,
    encBlob := fun _ _ _ => some 3, blobPayload := fun _ _ _ => some "QUFB" }

/-- Configuration and environment for instantiating the search-equivalence
theorem on a concrete 2 by 3 image. -/
def c2Cfg : Config := { maxEncodedKB := some (1 / 16) }

/-- Concrete all-success environment for a 2 by 3 image. -/
def c2Env : ImageEnv :=
  { fileData := some "data:image/png;base64,AAAA", image := some (2, 3), ctxOk := true,
    encBlob := fun _ _ _ => some 5, blobPayload := fun _ _ _ => some "QUFB" }

/-! General lemmas about the embedding. -/

/-- Characterization of `jsRound` through the floor inequalities. -/
theorem jsRound_eq (q : ℚ) (z : ℤ) (h1 : (z : ℚ) ≤ q + 1 / 2)
    (h2 : q + 1 / 2 < z + 1) : jsRound q = z := by
  unfold jsRound
  exact Int.floor_eq_iff.mpr ⟨h1, h2⟩

/-- With the default `maxSizeMB = 2`, the raw limit is 2097152 bytes. -/
theorem maxBytes_default_2MB (cfg : Config) (h : cfg.maxSizeMB = 2) :
    maxBytes cfg = 2097152 := by
  unfold maxBytes
  rw [h]
  exact jsRound_eq _ 2097152 (by norm_num) (by norm_num)

/-- With `maxEncodedKB = 1/16`, the encoded budget is 64 bytes. -/
theorem maxEncodedBytes_1_16 (cfg : Config) (h : cfg.maxEncodedKB = some (1 / 16)) :
    maxEncodedBytes cfg = some 64 := by
  unfold maxEncodedBytes
  rw [h]
  simp only [Option.map_some']
  exact congrArg some (jsRound_eq _ 64 (by norm_num) (by norm_num))

/-- Evaluation of `formatBytes` at the default raw limit. -/
theorem formatBytes_2MB : formatBytes 2097152 = "2.0 MB" := by
  have h20 : jsRound ((2097152 : ℚ) / 1024 ^ 2 * 10) = 20 :=
    jsRound_eq _ 20 (by norm_num) (by norm_num)
  have h20b : jsRound ((20 : ℚ)) = 20 := jsRound_eq _ 20 (by norm_num) (by norm_num)
  simp only [formatBytes, toFixedQ]
  norm_num [h20, h20b]
  decide

/-- The source loop and the specification's loop coincide pass by pass. -/
theorem compressPass_eq_fitLoopSpec (env : ImageEnv) (W H : Nat) (T : Int) :
    ∀ fuel scale quality,
      compressPass env W H T fuel scale quality = fitLoopSpec env W H T fuel scale quality := by
  intro fuel
  induction fuel with
  | zero => intro s q; rfl
  | succ n ih =>
    intro s q
    unfold compressPass fitLoopSpec
    simp only [ih]

/-- If every pass encodes to the same blob size `B` and `B` exceeds the
budget, the search exhausts its fuel and fails with the too-large error. -/
theorem compressPass_allBig (env : ImageEnv) (W H : Nat) (T : Int) (B : Nat)
    (hctx : env.ctxOk = true) (henc : ∀ w h q, env.encBlob w h q = some B)
    (hB : ¬ ((B : Int) ≤ T)) :
    ∀ fuel scale quality, compressPass env W H T fuel scale quality = .error .tooLarge := by
  intro fuel
  induction fuel with
  | zero => intro s q; rfl
  | succ n ih =>
    intro s q
    simp only [compressPass, hctx, henc]
    rw [if_neg (by decide : ¬ (true = false))]
    rw [if_neg hB]
    split
    · exact ih _ _
    · exact ih _ _

/-- On `c3Env` the 64-byte budget is unreachable: all ten passes fail. -/
theorem c3Env_fails : compressToFit c3Cfg c3Env 64 = .error .tooLarge :=
  compressPass_allBig c3Env 10 10 64 1000 rfl (fun _ _ _ => rfl) (by decide) 10 _ 0.85

/-- The emitted list of a selection does not depend on the prior state. -/
theorem rfd_emitted_state_independent (cfg : Config) (env : ImageEnv) (file : FileData)
    (sa sb : UploadState) :
    (readFileAsDataUrl cfg env file sa).emitted = (readFileAsDataUrl cfg env file sb).emitted := by
  by_cases h1 : (file.size : Int) > maxBytes cfg
  · simp [readFileAsDataUrl, h1]
  · by_cases h2 : strStartsWith file.type "image/"
    · cases henv : env.fileData with
      | none => simp [readFileAsDataUrl, h1, h2, henv]
      | some dataUrl =>
        cases htgt : maxEncodedBytes cfg with
        | none => simp [readFileAsDataUrl, h1, h2, henv, htgt]
        | some T =>
          by_cases h3 : (dataUrlByteLength dataUrl : Int) > T
          · cases hcomp : compressToFit cfg env T with
            | error e => simp [readFileAsDataUrl, h1, h2, henv, htgt, h3, hcomp]
            | ok c => simp [readFileAsDataUrl, h1, h2, henv, htgt, h3, hcomp]
          · simp [readFileAsDataUrl, h1, h2, henv, htgt, h3]
    · simp [readFileAsDataUrl, h1, h2]

/-- The values a `handleFile` call emits are those of `readFileAsDataUrl`. -/
theorem handleFile_snd_eq (cfg : Config) (env : ImageEnv) (file : FileData)
    (st : UploadState) :
    (handleFile cfg env file st).2 = (readFileAsDataUrl cfg env file st).emitted := rfl

/-- Every successful result of the pass loop is a JPEG data URL. -/
theorem compressPass_ok_isJpeg (env : ImageEnv) (W H : Nat) (T : Int) :
    ∀ fuel scale quality s, compressPass env W H T fuel scale quality = .ok s →
      ∃ p, s = "data:" ++ "image/jpeg" ++ ";base64," ++ p := by
  intro fuel
  induction fuel with
  | zero =>
    intro sc q s h
    exact absurd h (by simp [compressPass])
  | succ n ih =>
    intro sc q s h
    simp only [compressPass] at h
    split at h
    · exact absurd h (by simp)
    · split at h
      · exact absurd h (by simp)
      · split at h
        · split at h
          · exact absurd h (by simp)
          · injection h with h2
            exact ⟨_, h2.symm⟩
        · split at h
          · exact ih _ _ _ h
          · exact ih _ _ _ h

/-- Every successful result of `compressToFit` is a JPEG data URL. -/
theorem compressToFit_ok_isJpeg (cfg : Config) (env : ImageEnv) (T : Int) (s : String)
    (h : compressToFit cfg env T = .ok s) :
    ∃ p, s = "data:" ++ "image/jpeg" ++ ";base64," ++ p := by
  unfold compressToFit at h
  split at h
  · exact absurd h (by simp)
  · exact compressPass_ok_isJpeg env _ _ T 10 _ 0.85 s h

/-- The encoded budget of `c1Cfg` is 64 bytes. -/
theorem c1_target : maxEncodedBytes c1Cfg = some 64 := maxEncodedBytes_1_16 c1Cfg rfl

/-- On `c1Env` the first pass succeeds with a 60-byte blob, whose data URL
is `c1Emitted`. -/
theorem c1_compress_ok : compressToFit c1Cfg c1Env 64 = .ok c1Emitted := rfl

/-- Evaluating the selection on `c1Env`: the sink receives `c1Emitted`. -/
theorem c1_eval_emit : (selectFile c1Cfg c1Env c1File initialState).2 = [c1Emitted] := by
  have hsz : ¬ ((c1File.size : Int) > maxBytes c1Cfg) := by
    rw [maxBytes_default_2MB c1Cfg rfl]; decide
  have htype : strStartsWith c1File.type "image/" = true := by decide
  have hint : canInteract c1Cfg initialState = true := rfl
  have hread : c1Env.fileData = some c1Naive := rfl
  have hbig : (dataUrlByteLength c1Naive : Int) > 64 := by decide
  simp [selectFile, hint, handleFile, readFileAsDataUrl, hsz, htype, hread, c1_target, hbig,
    c1_compress_ok]

/-- The oversize hypothesis for the 3 MB file under the default limit. -/
theorem c8_size_big : (c4File.size : Int) > maxBytes ({} : Config) := by
  rw [maxBytes_default_2MB _ rfl]; decide

/-- The 70-byte file is within the default raw limit. -/
theorem c3_size_ok : ¬ ((c3File.size : Int) > maxBytes c3Cfg) := by
  rw [maxBytes_default_2MB c3Cfg rfl]
  decide

/-- The encoded budget of `c3Cfg` is 64 bytes. -/
theorem c3_target : maxEncodedBytes c3Cfg = some 64 := maxEncodedBytes_1_16 c3Cfg rfl

/-- The 100-byte file is within the default raw limit. -/
theorem c4_small_size_ok : ¬ ((c4SmallFile.size : Int) > maxBytes ({} : Config)) := by
  rw [maxBytes_default_2MB _ rfl]; decide

/-! Claim theorems. -/

/-- C1: the claim fails on the code.  With a 64-byte encoded budget, a
valid image file whose first compression pass yields a 60-byte blob is
accepted, yet the value handed to the sink is that blob's base64 data URL
of 103 bytes, exceeding the budget: `compressToFit` bounds the raw blob
size, not the byte length of the emitted data-URL string, contradicting
both the specification invariant and the source's own documentation of
`maxEncodedKB` as the limit on the stored data URL. -/
theorem c1_budget_bound_violated_on_emit :
    ((c1File.size : Int) ≤ maxBytes c1Cfg) ∧
    strStartsWith c1File.type "image/" = true ∧
    maxEncodedBytes c1Cfg = some 64 ∧
    (selectFile c1Cfg c1Env c1File initialState).2 = [c1Emitted] ∧
    dataUrlByteLength c1Emitted = 103 ∧
    ¬ ((103 : Int) ≤ 64) := by
  refine ⟨?_, by decide, c1_target, c1_eval_emit, by decide, by decide⟩
  rw [maxBytes_default_2MB c1Cfg rfl]; decide

/-- C2: the fit-to-budget search starts from scale
`min(1, maxDimension / longestSide)` and quality 0.85, runs at most 10
passes, succeeds on the first encoding within the budget, lowers quality by
0.10 floored at 0.55 before touching the scale, and multiplies the scale by
0.85 only once quality is at the floor: `compressToFit` equals the search
described by the specification (for an image with a positive longest
side). -/
theorem c2_fit_search_matches_spec (cfg : Config) (env : ImageEnv) (T : Int)
    (W H : Nat) (himg : env.image = some (W, H)) (hpos : 0 < max W H) :
    compressToFit cfg env T = fitToBudgetSpec cfg env T := by
  unfold compressToFit fitToBudgetSpec
  rw [himg]
  have hq : (0 : ℚ) < ((max W H : Nat) : ℚ) := by exact_mod_cast hpos
  have hscale :
      (if max W H > cfg.maxDimension
        then (cfg.maxDimension : ℚ) / ((max W H : Nat) : ℚ) else 1)
      = min 1 ((cfg.maxDimension : ℚ) / ((max W H : Nat) : ℚ)) := by
    by_cases h : max W H > cfg.maxDimension
    · rw [if_pos h, min_eq_right]
      rw [div_le_one hq]
      exact_mod_cast Nat.le_of_lt h
    · rw [if_neg h, min_eq_left]
      rw [le_div_iff₀ hq, one_mul]
      exact_mod_cast Nat.le_of_not_lt h
  simp only [hscale, compressPass_eq_fitLoopSpec]

theorem c2_fit_search_matches_spec_witness :
    c2Env.image = some (2, 3) ∧ 0 < max 2 3 ∧
      compressToFit c2Cfg c2Env 7 = fitToBudgetSpec c2Cfg c2Env 7 :=
  ⟨rfl, by decide, c2_fit_search_matches_spec c2Cfg c2Env 7 2 3 rfl (by decide)⟩

/-- C3: when the naive encoding exceeds the configured budget and the
compression search fails, the sink is never called and the reported message
contains the formatted budget. -/
theorem c3_unreachable_budget_reports_limit (cfg : Config) (env : ImageEnv)
    (file : FileData) (st : UploadState) (T : Int) (dataUrl : String)
    (hint : canInteract cfg st = true)
    (hsize : ¬ ((file.size : Int) > maxBytes cfg))
    (htype : strStartsWith file.type "image/" = true)
    (hread : env.fileData = some dataUrl)
    (htgt : maxEncodedBytes cfg = some T)
    (hbig : (dataUrlByteLength dataUrl : Int) > T)
    (hfail : ∃ e, compressToFit cfg env T = .error e) :
    (selectFile cfg env file st).2 = [] ∧
    ∃ pre post,
      (selectFile cfg env file st).1.error = some (pre ++ formatBytes T ++ post) := by
  obtain ⟨e, he⟩ := hfail
  constructor
  · simp [selectFile, hint, handleFile, readFileAsDataUrl, hsize, htype, hread, htgt, hbig, he]
  · refine ⟨"Image is too large to store. Please choose a smaller image or reduce resolution (limit: ",
      ").", ?_⟩
    simp [selectFile, hint, handleFile, readFileAsDataUrl, hsize, htype, hread, htgt, hbig, he,
      tooLargeMsg]

theorem c3_unreachable_budget_reports_limit_witness :
    canInteract c3Cfg initialState = true ∧
    ¬ ((c3File.size : Int) > maxBytes c3Cfg) ∧
    strStartsWith c3File.type "image/" = true ∧
    c3Env.fileData = some c3Naive ∧
    maxEncodedBytes c3Cfg = some 64 ∧
    (dataUrlByteLength c3Naive : Int) > 64 ∧
    (∃ e, compressToFit c3Cfg c3Env 64 = .error e) ∧
    ((selectFile c3Cfg c3Env c3File initialState).2 = [] ∧
      ∃ pre post,
        (selectFile c3Cfg c3Env c3File initialState).1.error
          = some (pre ++ formatBytes 64 ++ post)) :=
  ⟨rfl, c3_size_ok, by decide, rfl, c3_target, by decide, ⟨.tooLarge, c3Env_fails⟩,
    c3_unreachable_budget_reports_limit c3Cfg c3Env c3File initialState 64 c3Naive
      rfl c3_size_ok (by decide) rfl c3_target (by decide) ⟨.tooLarge, c3Env_fails⟩⟩

/-- C4 counterexample: a 3 MB file of type `text/plain` under the default
2 MB raw limit gets the size-limit message, not the not-an-image message
(the size check runs first), refuting the claim as stated. -/
theorem c4_counterexample_oversize_nonimage :
    strStartsWith c4File.type "image/" = false ∧
    (selectFile {} c4Env c4File initialState).2 = [] ∧
    (selectFile {} c4Env c4File initialState).1.error = some (sizeMsg {}) ∧
    (selectFile {} c4Env c4File initialState).1.error ≠ some notImageMsg := by
  have hmb : maxBytes ({} : Config) = 2097152 := maxBytes_default_2MB _ rfl
  have hsz : ((c4File.size : Int) > maxBytes ({} : Config)) := by rw [hmb]; decide
  have hint : canInteract {} initialState = true := rfl
  have hmsg : sizeMsg {} =
      "File exceeds size limit. Please upload a file smaller than 2.0 MB." := by
    unfold sizeMsg
    rw [hmb, formatBytes_2MB]
    decide
  refine ⟨by decide, ?_, ?_, ?_⟩
  · simp [selectFile, hint, handleFile, readFileAsDataUrl, hsz]
  · simp [selectFile, hint, handleFile, readFileAsDataUrl, hsz]
  · simp only [selectFile, hint, if_true, handleFile, readFileAsDataUrl, hsz, if_pos hsz]
    rw [hmsg]
    simp only [notImageMsg]
    decide

/-- C4 amended: a file whose declared type is not an image type and whose
size is within the raw limit is rejected with the not-an-image message and
no sink call (for an interactable session). -/
theorem c4_nonimage_within_size_gets_notimage_msg (cfg : Config) (env : ImageEnv)
    (file : FileData) (st : UploadState) (hint : canInteract cfg st = true)
    (hsize : ¬ ((file.size : Int) > maxBytes cfg))
    (htype : strStartsWith file.type "image/" = false) :
    (selectFile cfg env file st).2 = [] ∧
    (selectFile cfg env file st).1.error = some notImageMsg := by
  constructor <;> simp [selectFile, hint, handleFile, readFileAsDataUrl, hsize, htype]

theorem c4_nonimage_within_size_gets_notimage_msg_witness :
    canInteract {} initialState = true ∧
    ¬ ((c4SmallFile.size : Int) > maxBytes ({} : Config)) ∧
    strStartsWith c4SmallFile.type "image/" = false ∧
    ((selectFile {} c4Env c4SmallFile initialState).2 = [] ∧
      (selectFile {} c4Env c4SmallFile initialState).1.error = some notImageMsg) :=
  ⟨rfl, c4_small_size_ok, by decide,
    c4_nonimage_within_size_gets_notimage_msg {} c4Env c4SmallFile initialState rfl
      c4_small_size_ok (by decide)⟩

/-- C5: a selection on an interactable session emits nothing exactly when
an error message is set.  In particular every failing invocation (size or
type validation, read failure, compression failure) leaves the sink
uncalled — so the caller's current image value is untouched — and every
invocation that does not emit has been mapped to an on-screen message:
no failure escapes the handler (`selectFile` is a total function into
states; the thrown path is absorbed by the generic catch). -/
theorem c5_failures_never_emit (cfg : Config) (env : ImageEnv) (file : FileData)
    (st : UploadState) (hint : canInteract cfg st = true) :
    ((selectFile cfg env file st).2 = [] ↔
      ∃ m, (selectFile cfg env file st).1.error = some m) := by
  by_cases h1 : (file.size : Int) > maxBytes cfg
  · simp [selectFile, hint, handleFile, readFileAsDataUrl, h1]
  · by_cases h2 : strStartsWith file.type "image/"
    · cases henv : env.fileData with
      | none => simp [selectFile, hint, handleFile, readFileAsDataUrl, h1, h2, henv]
      | some dataUrl =>
        cases htgt : maxEncodedBytes cfg with
        | none => simp [selectFile, hint, handleFile, readFileAsDataUrl, h1, h2, henv, htgt]
        | some T =>
          by_cases h3 : (dataUrlByteLength dataUrl : Int) > T
          · cases hcomp : compressToFit cfg env T with
            | error e =>
              simp [selectFile, hint, handleFile, readFileAsDataUrl, h1, h2, henv, htgt, h3, hcomp]
            | ok c =>
              simp [selectFile, hint, handleFile, readFileAsDataUrl, h1, h2, henv, htgt, h3, hcomp]
          · simp [selectFile, hint, handleFile, readFileAsDataUrl, h1, h2, henv, htgt, h3]
    · simp [selectFile, hint, handleFile, readFileAsDataUrl, h1, h2]

theorem c5_failures_never_emit_witness :
    canInteract c3Cfg initialState = true ∧
    ((selectFile c3Cfg c3Env c3File initialState).2 = [] ↔
      ∃ m, (selectFile c3Cfg c3Env c3File initialState).1.error = some m) :=
  ⟨rfl, c5_failures_never_emit c3Cfg c3Env c3File initialState rfl⟩

/-- C6: `destroy` marks the session destroyed and emits the empty value;
while destroyed, a picker selection, a drop and a browse are no-ops that
never call the sink; after `reinitialize` the same selection emits exactly
what it would emit on a fresh active session. -/
theorem c6_destroy_noops_reinit_restores (cfg : Config) (env : ImageEnv)
    (file : FileData) (st : UploadState)
    (hdis : cfg.disabled = false) (hdrag : st.isDragging = false) :
    (destroy st).1.isDestroyed = true ∧
    (destroy st).2 = [""] ∧
    selectFile cfg env file (destroy st).1 = ((destroy st).1, []) ∧
    onBrowse cfg (destroy st).1 = false ∧
    onDrop cfg env file (destroy st).1 = ((destroy st).1, []) ∧
    canInteract cfg (( reinitialize (destroy st).1).1) = true ∧
    (selectFile cfg env file (( reinitialize (destroy st).1).1)).2
      = (selectFile cfg env file initialState).2 := by
  refine ⟨rfl, rfl, ?_, ?_, ?_, ?_, ?_⟩
  · simp [selectFile, canInteract, destroy]
  · simp [onBrowse, canInteract, destroy]
  · simp [onDrop, canInteract, destroy, hdrag]
  · simp [canInteract,  reinitialize, destroy, hdis]
  · have ha : canInteract cfg (( reinitialize (destroy st).1).1) = true := by
      simp [canInteract,  reinitialize, destroy, hdis]
    have hb : canInteract cfg initialState = true := by
      simp [canInteract, initialState, hdis]
    simp only [selectFile, ha, hb, if_true]
    rw [handleFile_snd_eq, handleFile_snd_eq]
    exact rfd_emitted_state_independent cfg env file _ _

theorem c6_destroy_noops_reinit_restores_witness :
    ({} : Config).disabled = false ∧
    initialState.isDragging = false ∧
    ((destroy initialState).1.isDestroyed = true ∧
      (destroy initialState).2 = [""] ∧
      selectFile {} c6Env c6File (destroy initialState).1 = ((destroy initialState).1, []) ∧
      onBrowse {} (destroy initialState).1 = false ∧
      onDrop {} c6Env c6File (destroy initialState).1 = ((destroy initialState).1, []) ∧
      canInteract {} (( reinitialize (destroy initialState).1).1) = true ∧
      (selectFile {} c6Env c6File (( reinitialize (destroy initialState).1).1)).2
        = (selectFile {} c6Env c6File initialState).2) :=
  ⟨rfl, rfl, c6_destroy_noops_reinit_restores {} c6Env c6File initialState rfl rfl⟩

/-- C7: a `resetSignal` change resets `error`, `lastFileMeta`, `isDragging`
and `isDestroyed` to their initial values and never calls the sink (so the
externally owned image value is untouched). -/
theorem c7_reset_clears_all_transient_state (st : UploadState) :
    (resetSession st).1.error = none ∧
    (resetSession st).1.lastFileMeta = none ∧
    (resetSession st).1.isDragging = false ∧
    (resetSession st).1.isDestroyed = false ∧
    (resetSession st).2 = [] :=
  ⟨rfl, rfl, rfl, rfl, rfl⟩

/-- C8: a file strictly larger than the raw limit is rejected without any
sink call, and the message contains the formatted configured limit. -/
theorem c8_oversize_rejected_with_limit (cfg : Config) (env : ImageEnv)
    (file : FileData) (st : UploadState) (hint : canInteract cfg st = true)
    (hsize : (file.size : Int) > maxBytes cfg) :
    (selectFile cfg env file st).2 = [] ∧
    ∃ pre post,
      (selectFile cfg env file st).1.error = some (pre ++ formatBytes (maxBytes cfg) ++ post) := by
  constructor
  · simp [selectFile, hint, handleFile, readFileAsDataUrl, hsize]
  · refine ⟨"File exceeds size limit. Please upload a file smaller than ", ".", ?_⟩
    simp [selectFile, hint, handleFile, readFileAsDataUrl, hsize, sizeMsg]

theorem c8_oversize_rejected_with_limit_witness :
    canInteract {} initialState = true ∧
    ((c4File.size : Int) > maxBytes ({} : Config)) ∧
    ((selectFile {} c4Env c4File initialState).2 = [] ∧
      ∃ pre post,
        (selectFile {} c4Env c4File initialState).1.error
          = some (pre ++ formatBytes (maxBytes ({} : Config)) ++ post)) :=
  ⟨rfl, c8_size_big,
    c8_oversize_rejected_with_limit {} c4Env c4File initialState rfl c8_size_big⟩

/-- C9: `clearImage` always emits the empty string via the sink and resets
metadata and error, from any prior state. -/
theorem c9_clear_emits_empty_and_resets (st : UploadState) :
    (clearImage st).2 = [""] ∧
    (clearImage st).1.lastFileMeta = none ∧
    (clearImage st).1.error = none :=
  ⟨rfl, rfl, rfl⟩

/-- C10: whenever the compression search runs (the naive encoding exceeded
the budget) and a value is emitted, that value is a JPEG data URL,
whatever the source file's declared image type was. -/
theorem c10_compressed_output_is_jpeg (cfg : Config) (env : ImageEnv) (file : FileData)
    (st : UploadState) (T : Int) (dataUrl v : String)
    (htgt : maxEncodedBytes cfg = some T)
    (hread : env.fileData = some dataUrl)
    (hbig : (dataUrlByteLength dataUrl : Int) > T)
    (hemit : (selectFile cfg env file st).2 = [v]) :
    ∃ p, v = "data:" ++ "image/jpeg" ++ ";base64," ++ p := by
  by_cases hint : canInteract cfg st = true
  · by_cases h1 : (file.size : Int) > maxBytes cfg
    · exact absurd hemit (by simp [selectFile, hint, handleFile, readFileAsDataUrl, h1])
    · by_cases h2 : strStartsWith file.type "image/"
      · cases hcomp : compressToFit cfg env T with
        | error e =>
          exact absurd hemit
            (by simp [selectFile, hint, handleFile, readFileAsDataUrl, h1, h2, hread, htgt,
              hbig, hcomp])
        | ok c =>
          have hv : c = v := by
            have h3 := hemit
            simp [selectFile, hint, handleFile, readFileAsDataUrl, h1, h2, hread, htgt,
              hbig, hcomp] at h3
            exact h3
          obtain ⟨p, hp⟩ := compressToFit_ok_isJpeg cfg env T c hcomp
          refine ⟨p, ?_⟩
          rw [← hv]
          exact hp
      · exact absurd hemit (by simp [selectFile, hint, handleFile, readFileAsDataUrl, h1, h2])
  · have hint2 : canInteract cfg st = false := by
      cases hc : canInteract cfg st
      · rfl
      · exact absurd hc hint
    exact absurd hemit (by simp [selectFile, hint2])

theorem c10_compressed_output_is_jpeg_witness :
    maxEncodedBytes c1Cfg = some 64 ∧
    c1Env.fileData = some c1Naive ∧
    (dataUrlByteLength c1Naive : Int) > 64 ∧
    (selectFile c1Cfg c1Env c1File initialState).2 = [c1Emitted] ∧
    ∃ p, c1Emitted = "data:" ++ "image/jpeg" ++ ";base64," ++ p :=
  ⟨c1_target, rfl, by decide, c1_eval_emit,
    c10_compressed_output_is_jpeg c1Cfg c1Env c1File initialState 64 c1Naive c1Emitted
      c1_target rfl (by decide) c1_eval_emit⟩

end CoverImageUpload
